import Mathlib

/-!
Shallow embedding of `app.py` (Streamlit facial-emotion / story app).

The app's authored logic is: write the uploaded bytes to a temp file,
decode it into an RGB image, (on button press, when both cached model
loaders returned a pipeline) classify the image to an emotion label,
display an emoji + label, generate a story from a prompt built from the
lowercased label, render the story with a download button, catch any
exception in one handler, and delete the temp file in a `finally` block.

External effects (PIL decoding, the two Hugging Face pipelines) are
modelled as oracle fields of `UploadCtx`; the handler is a pure function
producing an event trace and a final disk state.
-/

namespace FacialEmotion

/-- Python's `str.lower()`: lowercase each character (all labels and dict
keys in the app are ASCII). -/
def pyLower (s : String) : String :=
  String.mk (s.data.map Char.toLower)

/-- Opaque stand-in for a decoded PIL RGB image (`Image.open(...).convert("RGB")`). -/
structure PILImage where
  id : Nat
deriving DecidableEq, Repr

/-- Opaque stand-in for the image-classification pipeline object (app.py line 26). -/
structure EmotionPipe where
  id : Nat
deriving DecidableEq, Repr

/-- Opaque stand-in for the text-generation pipeline object (app.py line 36). -/
structure StoryPipe where
  id : Nat
deriving DecidableEq, Repr

/-- One entry of the list returned by the classification pipeline; the code
reads only the label field: `emotion_pipe(image)[0]['label']` (line 93). -/
structure EmotionResult where
  label : String
deriving DecidableEq, Repr

/-- One entry of the list returned by the text-generation pipeline; the code
reads only `story[0]['generated_text']` (line 120). -/
structure GenResult where
  generated_text : String
deriving DecidableEq, Repr

/-- The keyword arguments passed to the text-generation pipeline
(app.py lines 114-117): `max_length`, `max_new_tokens`, `do_sample`,
`temperature`.  These are the only keyword arguments in the call. -/
structure GenParams where
  max_length : Nat
  max_new_tokens : Nat
  do_sample : Bool
  temperature : ℚ
deriving DecidableEq, Repr

/-- The story prompt built at line 113:
`f"Tell a short story about a {emotion_pred.lower()} person"`. -/
def storyPrompt (emotion_pred : String) : String :=
  "Tell a short story about a " ++ pyLower emotion_pred ++ " person"

/-- The generation keyword arguments at lines 114-117, as a function of the
slider value `story_length`. -/
def storyGenParams (story_length : Nat) : GenParams :=
  { max_length := story_length
    max_new_tokens := story_length
    do_sample := true
    temperature := Rat.mk' 7 10 }

/-- The emoji dictionary at lines 97-105, as an association list in source order. -/
def emotion_emojis : List (String × String) :=
  [("happy", "😊"), ("sad", "😢"), ("angry", "😠"), ("surprised", "😲"),
   ("fearful", "😨"), ("disgusted", "😖"), ("neutral", "😐")]

/-- `emotion_emojis.get(emotion_pred.lower(), '😊')` (line 107). -/
def emojiFor (emotion_pred : String) : String :=
  (emotion_emojis.lookup (pyLower emotion_pred)).getD "😊"

/-- The download file name at line 145: `f"story_{emotion_pred.lower()}.txt"`. -/
def downloadFileName (emotion_pred : String) : String :=
  "story_" ++ pyLower emotion_pred ++ ".txt"

/-- The error text displayed by the catch-all handler at line 150:
`f"Error processing image: {e}"`. -/
def errorMessage (e : String) : String :=
  "Error processing image: " ++ e

/-- A Streamlit slider as configured by its four call arguments. -/
structure Slider where
  min_value : Nat
  max_value : Nat
  value : Nat
  step : Nat
deriving DecidableEq, Repr

/-- The story-length slider (app.py line 45):
`st.slider("Story Length (tokens)", min_value=50, max_value=200, value=100, step=10)`. -/
def story_length_slider : Slider :=
  { min_value := 50, max_value := 200, value := 100, step := 10 }

/-- The value a Streamlit slider shows after the user has moved it `k` steps
up from the minimum: values snap to `min_value + step * k` and are clamped
to the range. -/
def sliderAt (s : Slider) (k : Nat) : Nat :=
  s.min_value + s.step * min k ((s.max_value - s.min_value) / s.step)

/-- The value a Streamlit slider shows when the user has not moved it:
its `value` argument. -/
def sliderDefault (s : Slider) : Nat :=
  s.value

/-- Observable events of one run of the upload handler (lines 70-154),
in program order. -/
inductive Ev where
  | writeTmp (path : String)
  | decodeImage
  | classifyEv (img : PILImage)
  | showEmotion (emoji : String) (label : String)
  | generateEv (prompt : String) (params : GenParams)
  | showStory (text : String)
  | offerDownload (data : String) (file_name : String)
  | showError (msg : String)
  | unlinkTmp (path : String)
deriving DecidableEq, Repr

/-- Inputs of one run of the upload handler: the fresh temp-file path, the
slider value, whether the process button was pressed, and the external
effects as oracles.  `decode` is the outcome of `Image.open(tmp_path).convert("RGB")`,
`emotion_pipe` / `story_pipe` are the (memoized) loader results, and
`classify` / `generate` are the two pipeline calls, each able to raise. -/
structure UploadCtx where
  tmp_path : String
  story_length : Nat
  process_button : Bool
  decode : Except String PILImage
  emotion_pipe : Option EmotionPipe
  story_pipe : Option StoryPipe
  classify : PILImage → Except String (List EmotionResult)
  generate : String → GenParams → Except String (List GenResult)

/-- The `try` block body (lines 76-147): the events it emits, paired with
the exception it raises, if any.  Indexing an empty pipeline result raises
an IndexError, as `[0]` does in Python. -/
def tryBody (c : UploadCtx) : List Ev × Option String :=
  match c.decode with
  | Except.error e => ([Ev.decodeImage], some e)
  | Except.ok image =>
    if c.process_button then
      match c.emotion_pipe, c.story_pipe with
      | some _, some _ =>
        match c.classify image with
        | Except.error e => ([Ev.decodeImage, Ev.classifyEv image], some e)
        | Except.ok results =>
          match results with
          | [] => ([Ev.decodeImage, Ev.classifyEv image], some "IndexError: list index out of range")
          | r :: _ =>
            let emotion_pred := r.label
            let prompt := storyPrompt emotion_pred
            let params := storyGenParams c.story_length
            let evs := [Ev.decodeImage, Ev.classifyEv image,
                        Ev.showEmotion (emojiFor emotion_pred) emotion_pred,
                        Ev.generateEv prompt params]
            match c.generate prompt params with
            | Except.error e => (evs, some e)
            | Except.ok story =>
              match story with
              | [] => (evs, some "IndexError: list index out of range")
              | g :: _ =>
                (evs ++ [Ev.showStory g.generated_text,
                         Ev.offerDownload g.generated_text (downloadFileName emotion_pred)],
                 none)
      | _, _ => ([Ev.decodeImage], none)
    else ([Ev.decodeImage], none)

/-- Full output of one run of the upload handler: its event trace and the
disk state (set of file paths) when it finishes. -/
structure HandlerOut where
  trace : List Ev
  disk : List String
deriving DecidableEq, Repr

/-- The upload handler (lines 70-154): write the uploaded bytes to a fresh
temp file, run the `try` body, display the catch-all error message if the
body raised (line 150), and in `finally` unlink the temp file if it still
exists (lines 151-154). -/
def handleUpload (c : UploadCtx) (disk : List String) : HandlerOut :=
  let disk1 := c.tmp_path :: disk
  let body := tryBody c
  let evs2 := match body.2 with
    | some e => body.1 ++ [Ev.showError (errorMessage e)]
    | none => body.1
  let disk2 := if c.tmp_path ∈ disk1 then disk1.filter (fun p => p != c.tmp_path) else disk1
  { trace := Ev.writeTmp c.tmp_path :: (evs2 ++ [Ev.unlinkTmp c.tmp_path])
    disk := disk2 }

/-- The label the classifier returns for this run, when decoding and
classification succeed with a nonempty result list. -/
def firstLabel (c : UploadCtx) : Option String :=
  match c.decode with
  | Except.error _ => none
  | Except.ok image =>
    match c.classify image with
    | Except.ok (r :: _) => some r.label
    | _ => none

/-- Number of classification-pipeline invocations recorded in a trace. -/
def countClassify (t : List Ev) : Nat :=
  (t.filter fun ev => match ev with | Ev.classifyEv _ => true | _ => false).length

/-- Number of generation-pipeline invocations recorded in a trace. -/
def countGenerate (t : List Ev) : Nat :=
  (t.filter fun ev => match ev with | Ev.generateEv _ _ => true | _ => false).length

/-- Number of decode attempts recorded in a trace. -/
def countDecode (t : List Ev) : Nat :=
  (t.filter fun ev => match ev with | Ev.decodeImage => true | _ => false).length

/-- Number of error displays recorded in a trace. -/
def countShowError (t : List Ev) : Nat :=
  (t.filter fun ev => match ev with | Ev.showError _ => true | _ => false).length

/-- Memoization cache backing the two `@st.cache_resource` loaders: one slot
per decorated function, holding the stored return value once the first call
has run.  This is the only state the program keeps across interactions. -/
structure Cache where
  emotion_slot : Option (Option EmotionPipe)
  story_slot : Option (Option StoryPipe)
deriving DecidableEq, Repr

/-- The cache at process start: nothing stored yet. -/
def Cache.empty : Cache :=
  { emotion_slot := none, story_slot := none }

/-- `load_emotion_model` (lines 22-30) under `@st.cache_resource`: on a cache
miss run the body — construct the pipeline, or return `None` if construction
raises (the `except` branch) — and store the result; on a hit return the
stored object.  Returns (value, new cache, pipeline-constructor invocations). -/
def load_emotion_model (ctor : Except String EmotionPipe) (c : Cache) :
    Option EmotionPipe × Cache × Nat :=
  match c.emotion_slot with
  | some v => (v, c, 0)
  | none =>
    let v := match ctor with
      | Except.ok p => some p
      | Except.error _ => none
    (v, { c with emotion_slot := some v }, 1)

/-- `load_story_model` (lines 32-40) under `@st.cache_resource`, same shape
as `load_emotion_model`. -/
def load_story_model (ctor : Except String StoryPipe) (c : Cache) :
    Option StoryPipe × Cache × Nat :=
  match c.story_slot with
  | some v => (v, c, 0)
  | none =>
    let v := match ctor with
      | Except.ok p => some p
      | Except.error _ => none
    (v, { c with story_slot := some v }, 1)

/-- The events emitted up to and including the generation call, once the
classifier has returned a nonempty result list headed by `label`. -/
def preEvs (image : PILImage) (label : String) (n : Nat) : List Ev :=
  [Ev.decodeImage, Ev.classifyEv image, Ev.showEmotion (emojiFor label) label,
   Ev.generateEv (storyPrompt label) (storyGenParams n)]

/-- A concrete run in which everything succeeds and the classifier returns
the label "Happy" (capitalised, as classifier labels may be). -/
def ctxHappy : UploadCtx :=
  { tmp_path := "/tmp/upload.jpg"
    story_length := 120
    process_button := true
    decode := Except.ok { id := 0 }
    emotion_pipe := some { id := 1 }
    story_pipe := some { id := 2 }
    classify := fun _ => Except.ok [{ label := "Happy" }]
    generate := fun _ _ => Except.ok [{ generated_text := "Once upon a time." }] }

/-- A concrete run in which decoding the uploaded bytes raises. -/
def ctxDecodeErr : UploadCtx :=
  { ctxHappy with decode := Except.error "cannot identify image file" }

/-- A concrete run in which the emotion-model loader returned `None`. -/
def ctxNoPipe : UploadCtx :=
  { ctxHappy with emotion_pipe := none }

/-- The handler trace decomposes as: temp-file write, the `try`-body events,
the catch-all error display when the body raised, and the `finally` unlink. -/
lemma handleUpload_trace (c : UploadCtx) (disk : List String) :
    (handleUpload c disk).trace =
      Ev.writeTmp c.tmp_path ::
        ((tryBody c).1 ++
          (tryBody c).2.elim [] (fun e => [Ev.showError (errorMessage e)]) ++
          [Ev.unlinkTmp c.tmp_path]) := by
  unfold handleUpload
  rcases h : (tryBody c).2 with _ | e <;> simp [h]

/-- Exhaustive enumeration of the `try`-body outcomes. -/
lemma tryBody_cases (c : UploadCtx) :
    (∃ e, c.decode = Except.error e ∧ tryBody c = ([Ev.decodeImage], some e)) ∨
    (∃ image, c.decode = Except.ok image ∧ c.process_button = false ∧
      tryBody c = ([Ev.decodeImage], none)) ∨
    (∃ image, c.decode = Except.ok image ∧ c.process_button = true ∧
      (c.emotion_pipe = none ∨ c.story_pipe = none) ∧
      tryBody c = ([Ev.decodeImage], none)) ∨
    (∃ image ep sp e, c.decode = Except.ok image ∧ c.process_button = true ∧
      c.emotion_pipe = some ep ∧ c.story_pipe = some sp ∧
      c.classify image = Except.error e ∧
      tryBody c = ([Ev.decodeImage, Ev.classifyEv image], some e)) ∨
    (∃ image ep sp, c.decode = Except.ok image ∧ c.process_button = true ∧
      c.emotion_pipe = some ep ∧ c.story_pipe = some sp ∧
      c.classify image = Except.ok [] ∧
      tryBody c = ([Ev.decodeImage, Ev.classifyEv image],
                   some "IndexError: list index out of range")) ∨
    (∃ image ep sp r rs e, c.decode = Except.ok image ∧ c.process_button = true ∧
      c.emotion_pipe = some ep ∧ c.story_pipe = some sp ∧
      c.classify image = Except.ok (r :: rs) ∧
      c.generate (storyPrompt r.label) (storyGenParams c.story_length) = Except.error e ∧
      tryBody c = (preEvs image r.label c.story_length, some e)) ∨
    (∃ image ep sp r rs, c.decode = Except.ok image ∧ c.process_button = true ∧
      c.emotion_pipe = some ep ∧ c.story_pipe = some sp ∧
      c.classify image = Except.ok (r :: rs) ∧
      c.generate (storyPrompt r.label) (storyGenParams c.story_length) = Except.ok [] ∧
      tryBody c = (preEvs image r.label c.story_length,
                   some "IndexError: list index out of range")) ∨
    (∃ image ep sp r rs g gs, c.decode = Except.ok image ∧ c.process_button = true ∧
      c.emotion_pipe = some ep ∧ c.story_pipe = some sp ∧
      c.classify image = Except.ok (r :: rs) ∧
      c.generate (storyPrompt r.label) (storyGenParams c.story_length) = Except.ok (g :: gs) ∧
      tryBody c = (preEvs image r.label c.story_length ++
                    [Ev.showStory g.generated_text,
                     Ev.offerDownload g.generated_text (downloadFileName r.label)], none)) := by
  rcases hd : c.decode with e | image
  · exact Or.inl ⟨e, rfl, by simp [tryBody, hd]⟩
  · rcases hb : c.process_button
    · exact Or.inr (Or.inl ⟨image, rfl, rfl, by simp [tryBody, hd, hb]⟩)
    · rcases hp : c.emotion_pipe with _ | ep
      · exact Or.inr (Or.inr (Or.inl ⟨image, rfl, rfl, Or.inl rfl, by simp [tryBody, hd, hb, hp]⟩))
      · rcases hs : c.story_pipe with _ | sp
        · exact Or.inr (Or.inr (Or.inl ⟨image, rfl, rfl, Or.inr rfl, by simp [tryBody, hd, hb, hp, hs]⟩))
        · rcases hc : c.classify image with e | results
          · exact Or.inr (Or.inr (Or.inr (Or.inl
              ⟨image, ep, sp, e, rfl, rfl, rfl, rfl, hc, by simp [tryBody, hd, hb, hp, hs, hc]⟩)))
          · rcases results with _ | ⟨r, rs⟩
            · exact Or.inr (Or.inr (Or.inr (Or.inr (Or.inl
                ⟨image, ep, sp, rfl, rfl, rfl, rfl, hc, by simp [tryBody, hd, hb, hp, hs, hc]⟩))))
            · rcases hg : c.generate (storyPrompt r.label) (storyGenParams c.story_length) with e | story
              · exact Or.inr (Or.inr (Or.inr (Or.inr (Or.inr (Or.inl
                  ⟨image, ep, sp, r, rs, e, rfl, rfl, rfl, rfl, hc, hg,
                   by simp [tryBody, hd, hb, hp, hs, hc, hg, preEvs]⟩)))))
              · rcases story with _ | ⟨g, gs⟩
                · exact Or.inr (Or.inr (Or.inr (Or.inr (Or.inr (Or.inr (Or.inl
                    ⟨image, ep, sp, r, rs, rfl, rfl, rfl, rfl, hc, hg,
                     by simp [tryBody, hd, hb, hp, hs, hc, hg, preEvs]⟩))))))
                · exact Or.inr (Or.inr (Or.inr (Or.inr (Or.inr (Or.inr (Or.inr
                    ⟨image, ep, sp, r, rs, g, gs, rfl, rfl, rfl, rfl, hc, hg,
                     by simp [tryBody, hd, hb, hp, hs, hc, hg, preEvs]⟩))))))

/-- The constant `temperature` argument, as a rational literal. -/
lemma temperature_eq : (Rat.mk' 7 10 : ℚ) = 7/10 := by
  rw [Rat.mk'_eq_divInt, Rat.divInt_eq_div]
  norm_num

/-- Any generation event in a handler trace carries the prompt built from the
classifier's first label and the parameters built from the slider value. -/
lemma generateEv_mem (c : UploadCtx) (disk : List String) (prompt : String) (p : GenParams)
    (h : Ev.generateEv prompt p ∈ (handleUpload c disk).trace) :
    ∃ l, firstLabel c = some l ∧ prompt = storyPrompt l ∧ p = storyGenParams c.story_length := by
  rw [handleUpload_trace] at h
  rcases tryBody_cases c with
      ⟨e, hd, ht⟩ | ⟨image, hd, hb, ht⟩ | ⟨image, hd, hb, hp2, ht⟩ |
      ⟨image, ep, sp, e, hd, hb, hp2, hs, hc, ht⟩ |
      ⟨image, ep, sp, hd, hb, hp2, hs, hc, ht⟩ |
      ⟨image, ep, sp, r, rs, e, hd, hb, hp2, hs, hc, hg, ht⟩ |
      ⟨image, ep, sp, r, rs, hd, hb, hp2, hs, hc, hg, ht⟩ |
      ⟨image, ep, sp, r, rs, g, gs, hd, hb, hp2, hs, hc, hg, ht⟩ <;>
    rw [ht] at h <;> simp [preEvs] at h
  · exact ⟨r.label, by simp [firstLabel, hd, hc], h.1, h.2⟩
  · exact ⟨r.label, by simp [firstLabel, hd, hc], h.1, h.2⟩
  · exact ⟨r.label, by simp [firstLabel, hd, hc], h.1, h.2⟩

/-- C1 counterexample: with classifier label "Happy", the generation prompt
embeds the lowercased label "happy", not the label verbatim. -/
theorem prompt_not_verbatim :
    Ev.generateEv "Tell a short story about a happy person" (storyGenParams 120)
      ∈ (handleUpload ctxHappy []).trace ∧
    Ev.generateEv ("Tell a short story about a " ++ "Happy" ++ " person") (storyGenParams 120)
      ∉ (handleUpload ctxHappy []).trace ∧
    firstLabel ctxHappy = some "Happy" := by
  exact ⟨by decide, by decide, by decide⟩

/-- C1 (amended): the prompt is "Tell a short story about a ", the label as
returned by the classifier but lowercased, then " person". -/
theorem prompt_embeds_lowercased_label (c : UploadCtx) (disk : List String)
    (prompt : String) (p : GenParams)
    (h : Ev.generateEv prompt p ∈ (handleUpload c disk).trace) :
    ∃ l, firstLabel c = some l ∧
      prompt = "Tell a short story about a " ++ pyLower l ++ " person" := by
  obtain ⟨l, h1, h2, _⟩ := generateEv_mem c disk prompt p h
  exact ⟨l, h1, h2⟩

/-- C1 witness. -/
theorem prompt_embeds_lowercased_label_witness :
    ∃ l, firstLabel ctxHappy = some l ∧
      "Tell a short story about a happy person"
        = "Tell a short story about a " ++ pyLower l ++ " person" :=
  prompt_embeds_lowercased_label ctxHappy [] "Tell a short story about a happy person"
    (storyGenParams 120) (by decide)

/-- C2: when decode, classification and generation all succeed, the handler
performs exactly: temp write, decode, classify, label display, generation with
the prompt built from the classification result, story display, download
offer, unlink — classification before generation, prompt depending on it. -/
theorem processing_sequence (c : UploadCtx) (disk : List String)
    (image : PILImage) (ep : EmotionPipe) (sp : StoryPipe)
    (r : EmotionResult) (rs : List EmotionResult) (g : GenResult) (gs : List GenResult)
    (hd : c.decode = Except.ok image) (hb : c.process_button = true)
    (hp : c.emotion_pipe = some ep) (hs : c.story_pipe = some sp)
    (hc : c.classify image = Except.ok (r :: rs))
    (hg : c.generate (storyPrompt r.label) (storyGenParams c.story_length)
            = Except.ok (g :: gs)) :
    (handleUpload c disk).trace =
      [Ev.writeTmp c.tmp_path, Ev.decodeImage, Ev.classifyEv image,
       Ev.showEmotion (emojiFor r.label) r.label,
       Ev.generateEv (storyPrompt r.label) (storyGenParams c.story_length),
       Ev.showStory g.generated_text,
       Ev.offerDownload g.generated_text (downloadFileName r.label),
       Ev.unlinkTmp c.tmp_path] := by
  have ht : tryBody c = (preEvs image r.label c.story_length ++
      [Ev.showStory g.generated_text,
       Ev.offerDownload g.generated_text (downloadFileName r.label)], none) := by
    simp [tryBody, hd, hb, hp, hs, hc, hg, preEvs]
  rw [handleUpload_trace, ht]
  simp [preEvs]

/-- C2 witness. -/
theorem processing_sequence_witness :
    (handleUpload ctxHappy []).trace =
      [Ev.writeTmp "/tmp/upload.jpg", Ev.decodeImage, Ev.classifyEv { id := 0 },
       Ev.showEmotion (emojiFor "Happy") "Happy",
       Ev.generateEv (storyPrompt "Happy") (storyGenParams 120),
       Ev.showStory "Once upon a time.",
       Ev.offerDownload "Once upon a time." (downloadFileName "Happy"),
       Ev.unlinkTmp "/tmp/upload.jpg"] :=
  processing_sequence ctxHappy [] { id := 0 } { id := 1 } { id := 2 }
    { label := "Happy" } [] { generated_text := "Once upon a time." } []
    rfl rfl rfl rfl rfl rfl

/-- C3: every generation call passes exactly max_length and max_new_tokens
equal to the slider value, do_sample true, and temperature 0.7 = 7/10. -/
theorem generation_sampling_params (c : UploadCtx) (disk : List String)
    (prompt : String) (p : GenParams)
    (h : Ev.generateEv prompt p ∈ (handleUpload c disk).trace) :
    p = storyGenParams c.story_length ∧
    p.max_length = c.story_length ∧ p.max_new_tokens = c.story_length ∧
    p.do_sample = true ∧ p.temperature = 7/10 := by
  obtain ⟨l, _, _, hp⟩ := generateEv_mem c disk prompt p h
  subst hp
  exact ⟨rfl, rfl, rfl, rfl, temperature_eq⟩

/-- C3 witness. -/
theorem generation_sampling_params_witness :
    storyGenParams 120 = storyGenParams ctxHappy.story_length ∧
    (storyGenParams 120).max_length = ctxHappy.story_length ∧
    (storyGenParams 120).max_new_tokens = ctxHappy.story_length ∧
    (storyGenParams 120).do_sample = true ∧
    (storyGenParams 120).temperature = 7/10 :=
  generation_sampling_params ctxHappy [] (storyPrompt "Happy") (storyGenParams 120) (by decide)

/-- C4: each loader is memoized: a second call returns the same object and
the same cache, invokes the pipeline constructor zero times, and any single
call invokes it at most once. -/
theorem model_memoization (ector : Except String EmotionPipe)
    (sctor : Except String StoryPipe) (c0 : Cache) :
    ((load_emotion_model ector (load_emotion_model ector c0).2.1).1
        = (load_emotion_model ector c0).1) ∧
    ((load_emotion_model ector (load_emotion_model ector c0).2.1).2.1
        = (load_emotion_model ector c0).2.1) ∧
    ((load_emotion_model ector (load_emotion_model ector c0).2.1).2.2 = 0) ∧
    ((load_emotion_model ector c0).2.2 ≤ 1) ∧
    ((load_story_model sctor (load_story_model sctor c0).2.1).1
        = (load_story_model sctor c0).1) ∧
    ((load_story_model sctor (load_story_model sctor c0).2.1).2.1
        = (load_story_model sctor c0).2.1) ∧
    ((load_story_model sctor (load_story_model sctor c0).2.1).2.2 = 0) ∧
    ((load_story_model sctor c0).2.2 ≤ 1) := by
  rcases c0 with ⟨es, ss⟩
  rcases es with _ | v <;> rcases ss with _ | w <;>
    rcases ector with e1 | p1 <;> rcases sctor with e2 | p2 <;>
      simp [load_emotion_model, load_story_model]

/-- C5: when the try body raises, the handler appends exactly one catch-all
error display containing the exception, still unlinks the temp file, and has
invoked decode, classification and generation at most once each. -/
theorem catch_all_error_handling (c : UploadCtx) (disk : List String) (e : String)
    (h : (tryBody c).2 = some e) :
    (handleUpload c disk).trace =
      Ev.writeTmp c.tmp_path ::
        ((tryBody c).1 ++ [Ev.showError (errorMessage e), Ev.unlinkTmp c.tmp_path]) ∧
    countShowError (handleUpload c disk).trace = 1 ∧
    countClassify (handleUpload c disk).trace ≤ 1 ∧
    countGenerate (handleUpload c disk).trace ≤ 1 ∧
    countDecode (handleUpload c disk).trace ≤ 1 := by
  rcases tryBody_cases c with
      ⟨e0, hd, ht⟩ | ⟨image, hd, hb, ht⟩ | ⟨image, hd, hb, hp2, ht⟩ |
      ⟨image, ep, sp, e0, hd, hb, hp2, hs, hc, ht⟩ |
      ⟨image, ep, sp, hd, hb, hp2, hs, hc, ht⟩ |
      ⟨image, ep, sp, r, rs, e0, hd, hb, hp2, hs, hc, hg, ht⟩ |
      ⟨image, ep, sp, r, rs, hd, hb, hp2, hs, hc, hg, ht⟩ |
      ⟨image, ep, sp, r, rs, g, gs, hd, hb, hp2, hs, hc, hg, ht⟩ <;>
    rw [ht] at h <;> simp at h <;>
    rw [handleUpload_trace, ht] <;> subst h <;>
    simp [preEvs, countShowError, countClassify, countGenerate, countDecode]

/-- C5 witness. -/
theorem catch_all_error_handling_witness :
    (handleUpload ctxDecodeErr []).trace =
      Ev.writeTmp "/tmp/upload.jpg" ::
        ((tryBody ctxDecodeErr).1 ++
          [Ev.showError (errorMessage "cannot identify image file"),
           Ev.unlinkTmp "/tmp/upload.jpg"]) ∧
    countShowError (handleUpload ctxDecodeErr []).trace = 1 ∧
    countClassify (handleUpload ctxDecodeErr []).trace ≤ 1 ∧
    countGenerate (handleUpload ctxDecodeErr []).trace ≤ 1 ∧
    countDecode (handleUpload ctxDecodeErr []).trace ≤ 1 :=
  catch_all_error_handling ctxDecodeErr [] "cannot identify image file" (by decide)

/-- C6: whether or not the try body raises, the temp file written from the
upload is unlinked before the handler finishes: the final disk equals the
initial one, and the unlink event is in the trace. -/
theorem tmpfile_cleanup (c : UploadCtx) (disk : List String)
    (h : c.tmp_path ∉ disk) :
    (handleUpload c disk).disk = disk ∧
    Ev.unlinkTmp c.tmp_path ∈ (handleUpload c disk).trace := by
  constructor
  · show (if c.tmp_path ∈ c.tmp_path :: disk
        then (c.tmp_path :: disk).filter (fun p => p != c.tmp_path)
        else c.tmp_path :: disk) = disk
    rw [if_pos (List.mem_cons_self c.tmp_path disk)]
    rw [List.filter_cons]
    simp only [bne_self_eq_false, Bool.false_eq_true, if_false]
    exact List.filter_eq_self.mpr fun a ha => by
      simp only [bne_iff_ne, ne_eq]
      exact fun hcon => h (hcon ▸ ha)
  · rw [handleUpload_trace]
    simp

/-- C6 witness. -/
theorem tmpfile_cleanup_witness :
    (handleUpload ctxHappy ["other.txt"]).disk = ["other.txt"] ∧
    Ev.unlinkTmp "/tmp/upload.jpg" ∈ (handleUpload ctxHappy ["other.txt"]).trace :=
  tmpfile_cleanup ctxHappy ["other.txt"] (by decide)

/-- C7: the downloaded text equals the rendered text — both are the
generated_text of the first generation result — and the download file name is
"story_" ++ lowercased label ++ ".txt". -/
theorem download_matches_rendered (c : UploadCtx) (disk : List String) (d f : String)
    (h : Ev.offerDownload d f ∈ (handleUpload c disk).trace) :
    Ev.showStory d ∈ (handleUpload c disk).trace ∧
    ∃ l, firstLabel c = some l ∧ f = "story_" ++ pyLower l ++ ".txt" ∧
      ∃ g gs, c.generate (storyPrompt l) (storyGenParams c.story_length)
                = Except.ok (g :: gs) ∧ d = g.generated_text := by
  rcases tryBody_cases c with
      ⟨e0, hd, ht⟩ | ⟨image, hd, hb, ht⟩ | ⟨image, hd, hb, hp2, ht⟩ |
      ⟨image, ep, sp, e0, hd, hb, hp2, hs, hc, ht⟩ |
      ⟨image, ep, sp, hd, hb, hp2, hs, hc, ht⟩ |
      ⟨image, ep, sp, r, rs, e0, hd, hb, hp2, hs, hc, hg, ht⟩ |
      ⟨image, ep, sp, r, rs, hd, hb, hp2, hs, hc, hg, ht⟩ |
      ⟨image, ep, sp, r, rs, g, gs, hd, hb, hp2, hs, hc, hg, ht⟩ <;>
    rw [handleUpload_trace, ht] at h ⊢ <;> simp [preEvs] at h
  obtain ⟨hd2, hf⟩ := h
  subst hd2
  subst hf
  exact ⟨by simp [preEvs], r.label, by simp [firstLabel, hd, hc], rfl, g, gs, hg, rfl⟩

/-- C7 witness. -/
theorem download_matches_rendered_witness :
    Ev.showStory "Once upon a time." ∈ (handleUpload ctxHappy []).trace ∧
    ∃ l, firstLabel ctxHappy = some l ∧
      "story_happy.txt" = "story_" ++ pyLower l ++ ".txt" ∧
      ∃ g gs, ctxHappy.generate (storyPrompt l) (storyGenParams ctxHappy.story_length)
                = Except.ok (g :: gs) ∧ "Once upon a time." = g.generated_text :=
  download_matches_rendered ctxHappy [] "Once upon a time." "story_happy.txt" (by decide)

/-- C8: every attainable slider value lies in [50, 200] and is 50 plus a
multiple of 10, the default is 100, and the generation call's max_length and
max_new_tokens both equal the selected slider value. -/
theorem story_length_range :
    (∀ k, 50 ≤ sliderAt story_length_slider k ∧ sliderAt story_length_slider k ≤ 200 ∧
      ∃ m, sliderAt story_length_slider k = 50 + 10 * m) ∧
    sliderDefault story_length_slider = 100 ∧
    (∀ (c : UploadCtx) (disk : List String) (prompt : String) (p : GenParams) (k : Nat),
      c.story_length = sliderAt story_length_slider k →
      Ev.generateEv prompt p ∈ (handleUpload c disk).trace →
      p.max_length = sliderAt story_length_slider k ∧
      p.max_new_tokens = sliderAt story_length_slider k ∧
      50 ≤ p.max_length ∧ p.max_length ≤ 200 ∧ ∃ m, p.max_length = 50 + 10 * m) := by
  have hv : ∀ k, sliderAt story_length_slider k = 50 + 10 * min k 15 := fun k => rfl
  have hrange : ∀ k, 50 ≤ sliderAt story_length_slider k ∧
      sliderAt story_length_slider k ≤ 200 ∧
      ∃ m, sliderAt story_length_slider k = 50 + 10 * m := by
    intro k
    refine ⟨by rw [hv]; omega, by rw [hv]; omega, min k 15, hv k⟩
  refine ⟨hrange, rfl, ?_⟩
  intro c disk prompt p k hk h
  obtain ⟨l, _, _, hp⟩ := generateEv_mem c disk prompt p h
  subst hp
  have h1 : (storyGenParams c.story_length).max_length = c.story_length := rfl
  have h2 : (storyGenParams c.story_length).max_new_tokens = c.story_length := rfl
  rw [h1, h2, hk]
  obtain ⟨a, b, m, hm⟩ := hrange k
  exact ⟨rfl, rfl, a, b, m, hm⟩

/-- C8 witness. -/
theorem story_length_range_witness :
    (storyGenParams 120).max_length = sliderAt story_length_slider 7 ∧
    (storyGenParams 120).max_new_tokens = sliderAt story_length_slider 7 ∧
    50 ≤ (storyGenParams 120).max_length ∧ (storyGenParams 120).max_length ≤ 200 ∧
    ∃ m, (storyGenParams 120).max_length = 50 + 10 * m :=
  story_length_range.2.2 ctxHappy [] (storyPrompt "Happy") (storyGenParams 120) 7
    (by decide) (by decide)

/-- C9: the emoji lookup is total — unknown lowercased labels fall back to
the default emoji — and whenever classification succeeds the label display
happens, whatever the label. -/
theorem emoji_lookup_total :
    (∀ label, emotion_emojis.lookup (pyLower label) = none → emojiFor label = "😊") ∧
    (∀ (c : UploadCtx) (disk : List String) (image : PILImage)
       (r : EmotionResult) (rs : List EmotionResult),
      c.decode = Except.ok image → c.process_button = true →
      c.emotion_pipe ≠ none → c.story_pipe ≠ none →
      c.classify image = Except.ok (r :: rs) →
      Ev.showEmotion (emojiFor r.label) r.label ∈ (handleUpload c disk).trace) := by
  constructor
  · intro label hl
    unfold emojiFor
    rw [hl]
    rfl
  · intro c disk image r rs hd hb hpn hsn hc
    rcases hp : c.emotion_pipe with _ | ep
    · exact absurd hp hpn
    rcases hs : c.story_pipe with _ | sp
    · exact absurd hs hsn
    rcases hg : c.generate (storyPrompt r.label) (storyGenParams c.story_length) with e | story
    · have ht : tryBody c = (preEvs image r.label c.story_length, some e) := by
        simp [tryBody, hd, hb, hp, hs, hc, hg, preEvs]
      rw [handleUpload_trace, ht]
      simp [preEvs]
    · rcases story with _ | ⟨g, gs⟩
      · have ht : tryBody c = (preEvs image r.label c.story_length,
            some "IndexError: list index out of range") := by
          simp [tryBody, hd, hb, hp, hs, hc, hg, preEvs]
        rw [handleUpload_trace, ht]
        simp [preEvs]
      · have ht : tryBody c = (preEvs image r.label c.story_length ++
            [Ev.showStory g.generated_text,
             Ev.offerDownload g.generated_text (downloadFileName r.label)], none) := by
          simp [tryBody, hd, hb, hp, hs, hc, hg, preEvs]
        rw [handleUpload_trace, ht]
        simp [preEvs]

/-- C9 witness. -/
theorem emoji_lookup_total_witness :
    emojiFor "excited" = "😊" ∧
    Ev.showEmotion (emojiFor "Happy") "Happy" ∈ (handleUpload ctxHappy []).trace :=
  ⟨emoji_lookup_total.1 "excited" (by decide),
   emoji_lookup_total.2 ctxHappy [] { id := 0 } { label := "Happy" } []
     rfl rfl (by decide) (by decide) rfl⟩

/-- C10: if either loader returned None, the handler performs no
classification, no generation, and renders neither emotion nor story nor
download offer. -/
theorem no_inference_without_models (c : UploadCtx) (disk : List String)
    (h : c.emotion_pipe = none ∨ c.story_pipe = none) :
    countClassify (handleUpload c disk).trace = 0 ∧
    countGenerate (handleUpload c disk).trace = 0 ∧
    (∀ e l, Ev.showEmotion e l ∉ (handleUpload c disk).trace) ∧
    (∀ t, Ev.showStory t ∉ (handleUpload c disk).trace) ∧
    (∀ d f, Ev.offerDownload d f ∉ (handleUpload c disk).trace) := by
  rcases tryBody_cases c with
      ⟨e0, hd, ht⟩ | ⟨image, hd, hb, ht⟩ | ⟨image, hd, hb, hp2, ht⟩ |
      ⟨image, ep, sp, e0, hd, hb, hp2, hs, hc, ht⟩ |
      ⟨image, ep, sp, hd, hb, hp2, hs, hc, ht⟩ |
      ⟨image, ep, sp, r, rs, e0, hd, hb, hp2, hs, hc, hg, ht⟩ |
      ⟨image, ep, sp, r, rs, hd, hb, hp2, hs, hc, hg, ht⟩ |
      ⟨image, ep, sp, r, rs, g, gs, hd, hb, hp2, hs, hc, hg, ht⟩
  · rw [handleUpload_trace, ht]
    simp [countClassify, countGenerate]
  · rw [handleUpload_trace, ht]
    simp [countClassify, countGenerate]
  · rw [handleUpload_trace, ht]
    simp [countClassify, countGenerate]
  all_goals rcases h with h | h <;> simp_all

/-- C10 witness. -/
theorem no_inference_without_models_witness :
    countClassify (handleUpload ctxNoPipe []).trace = 0 ∧
    countGenerate (handleUpload ctxNoPipe []).trace = 0 ∧
    Ev.showStory "Once upon a time." ∉ (handleUpload ctxNoPipe []).trace :=
  ⟨(no_inference_without_models ctxNoPipe [] (Or.inl rfl)).1,
   (no_inference_without_models ctxNoPipe [] (Or.inl rfl)).2.1,
   (no_inference_without_models ctxNoPipe [] (Or.inl rfl)).2.2.2.1 "Once upon a time."⟩

end FacialEmotion
